import Mathlib

/-!
Verification of the `sts` servo-driver wrapper (`src/STservo_sdk/sts.py`)
against its natural-language specification.

The file shallowly embeds the wrapper's methods.  The wrapper delegates to
`protocol_packet_handler`, `group_sync_write` and `stservo_def`, which are
not part of the provided sources; those collaborators are modelled from the
specification (each such definition carries a doc comment starting with
`Modelled from the spec:`).  Everything defined directly from
`src/STservo_sdk/sts.py` mirrors that file line by line.
-/

namespace STS

/-- Communication results of a transaction (spec §3, `CommResult`).
`Success` corresponds to the Python constant `COMM_SUCCESS`. -/
inductive CommResult
  | Success
  | PortBusy
  | TxFailed
  | RxFailed
  | RxTimeout
  | RxCorrupt
  | RxWaiting
  | NotAvailable
  deriving DecidableEq, Repr

/-- Protocol instructions (spec §3, `Instruction`). -/
inductive Instr
  | Ping
  | ReadData
  | WriteData
  | RegWrite
  | Action
  | SyncWrite
  | SyncRead
  deriving DecidableEq, Repr

/-! Register-table constants, copied from `src/STservo_sdk/sts.py`. -/

def STS_ACC : Nat := 41
def STS_PRESENT_POSITION_L : Nat := 56
def STS_PRESENT_SPEED_L : Nat := 58
def STS_PRESENT_LOAD_L : Nat := 60
def STS_PRESENT_LOAD_H : Nat := 61
def STS_PRESENT_CURRENT_L : Nat := 69
def STS_PRESENT_CURRENT_H : Nat := 70

/-- Modelled from the spec: the reserved broadcast address (`BROADCAST_ID`
from `stservo_def`, not in src): "A broadcast `target_id` (reserved value,
e.g. 0xFE) addresses all bus participants" (spec §3). -/
def BROADCAST_ID : Nat := 0xFE

/-! ## Numeric codec (spec §4.2), modelled from the spec.
`sts_lobyte`, `sts_hibyte`, `sts_loword`, `sts_hiword`, `sts_tohost` and
`sts_toscs` live in `protocol_packet_handler`, which is not in src.
Byte extraction is extended from `u16` to all integers the way Python's
bit operations behave (`w & 0xFF` is the Euclidean remainder,
`w >> 8` is flooring division), since the wrapper passes caller-supplied
Python integers straight into them. -/

/-- Modelled from the spec: `lobyte` — low-byte extraction (spec §4.2). -/
def sts_lobyte (w : Int) : Int := w % 256

/-- Modelled from the spec: `hibyte` — high-byte extraction (spec §4.2). -/
def sts_hibyte (w : Int) : Int := (Int.fdiv w 256) % 256

/-- Modelled from the spec: `loword(u32) -> u16` (spec §4.2). -/
def sts_loword (w : Nat) : Nat := w % 65536

/-- Modelled from the spec: `hiword(u32) -> u16` (spec §4.2). -/
def sts_hiword (w : Nat) : Nat := (w / 65536) % 65536

/-- Modelled from the spec: `to_signed15(raw, sign_bit_index)` — the
sign-magnitude decoder (`sts_tohost` in the SDK, not in src): "if bit
`sign_bit_index` is set, result = `-(raw & ((1<<sign_bit_index)-1))`;
else result = `raw & ((1<<sign_bit_index)-1)`" (spec §4.2). -/
def sts_tohost (raw : Nat) (sign_bit_index : Nat) : Int :=
  if raw.testBit sign_bit_index then
    -(((raw &&& (2 ^ sign_bit_index - 1)) : Nat) : Int)
  else
    (((raw &&& (2 ^ sign_bit_index - 1)) : Nat) : Int)

/-- Modelled from the spec: `to_device15(value, sign_bit_index)` — the
sign-magnitude encoder (`sts_toscs` in the SDK, not in src): "inverse;
fails with `ValueOutOfRange` if `abs(value) > (1<<sign_bit_index)-1`"
(spec §4.2, §3: sign bit set means negative, magnitude in the low bits).
`none` models the `ValueOutOfRange` failure. -/
def sts_toscs (value : Int) (sign_bit_index : Nat) : Option Nat :=
  if 2 ^ sign_bit_index - 1 < value.natAbs then
    none
  else if value < 0 then
    some (2 ^ sign_bit_index + value.natAbs)
  else
    some value.toNat

/-! ## Transaction engine (spec §4.3), modelled from the spec.
A single-target transaction is recorded as the frame content it puts on
the bus: target id, instruction, register start address and the data
bytes.  `Action` frames carry no parameters and no register address
(spec §4.3: "encodes and transmits an `Action` frame with no
parameters"); the address field is unused (0) for them. -/

structure Txn where
  target : Nat
  instruction : Instr
  startAddress : Nat
  params : List Int
  deriving DecidableEq, Repr

/-- Modelled from the spec: `writeTxRx` — "`write(target_id,
start_address, bytes)`: encodes a `WriteData` frame, transmits" (spec
§4.3).  The length argument mirrors the Python signature. -/
def writeTxRx (target_id : Nat) (start_address : Nat) (_length : Nat)
    (data : List Int) : Txn :=
  ⟨target_id, Instr.WriteData, start_address, data⟩

/-- Modelled from the spec: `regWriteTxRx` — "`reg_write(target_id,
start_address, bytes)`: identical wire behavior to `write` but using the
`RegWrite` instruction" (spec §4.3). -/
def regWriteTxRx (target_id : Nat) (start_address : Nat) (_length : Nat)
    (data : List Int) : Txn :=
  ⟨target_id, Instr.RegWrite, start_address, data⟩

/-- Modelled from the spec: `action(target_id)` — "encodes and transmits
an `Action` frame with no parameters" (spec §4.3). -/
def action (target_id : Nat) : Txn :=
  ⟨target_id, Instr.Action, 0, []⟩

/-! ## Group sync-write aggregator (spec §4.4), modelled from the spec.
`GroupSyncWrite` lives in `group_sync_write`, which is not in src. -/

/-- Result of staging a block into the group write buffer (spec §4.4). -/
inductive AddResult
  | Ok
  | LengthMismatch
  | DuplicateTarget
  deriving DecidableEq, Repr

/-- Modelled from the spec: the group write buffer — "`new(start_address,
block_length)` creates an empty buffer bound to a fixed register window"
(spec §4.4); staged entries keep insertion order (spec §4.4: the
implementation may use insertion order). -/
structure GroupSyncWrite where
  start_address : Nat
  data_length : Nat
  data : List (Nat × List Int)
  deriving DecidableEq, Repr

/-- Modelled from the spec: `addParam` — "`add(target_id, block)` fails
with `LengthMismatch` if `len(block) != block_length`, and with
`DuplicateTarget` if `target_id` already staged; otherwise stores the
block" (spec §4.4).  The buffer is returned unchanged on failure. -/
def addParam (g : GroupSyncWrite) (target_id : Nat) (block : List Int) :
    AddResult × GroupSyncWrite :=
  if block.length ≠ g.data_length then
    (AddResult.LengthMismatch, g)
  else if g.data.any (fun e => e.1 = target_id) then
    (AddResult.DuplicateTarget, g)
  else
    (AddResult.Ok, { g with data := g.data ++ [(target_id, block)] })

/-! ## The `sts` wrapper itself, from `src/STservo_sdk/sts.py`. -/

/-- `self.groupSyncWrite = GroupSyncWrite(self, STS_ACC, 7)` in
`sts.__init__` (src line 69): the buffer the handler creates once. -/
def stsGroupSyncWrite : GroupSyncWrite :=
  ⟨STS_ACC, 7, []⟩

/-- `WritePosEx` (src lines 71-73). -/
def WritePosEx (sts_id : Nat) (position speed acc : Int) : Txn :=
  let txpacket : List Int :=
    [acc, sts_lobyte position, sts_hibyte position, 0, 0,
     sts_lobyte speed, sts_hibyte speed]
  writeTxRx sts_id STS_ACC txpacket.length txpacket

/-- `RegWritePosEx` (src lines 124-126). -/
def RegWritePosEx (sts_id : Nat) (position speed acc : Int) : Txn :=
  let txpacket : List Int :=
    [acc, sts_lobyte position, sts_hibyte position, 0, 0,
     sts_lobyte speed, sts_hibyte speed]
  regWriteTxRx sts_id STS_ACC txpacket.length txpacket

/-- `SyncWritePosEx` (src lines 120-122): stages its packet into the
handler's group write buffer via `addParam`. -/
def SyncWritePosEx (g : GroupSyncWrite) (sts_id : Nat)
    (position speed acc : Int) : AddResult × GroupSyncWrite :=
  let txpacket : List Int :=
    [acc, sts_lobyte position, sts_hibyte position, 0, 0,
     sts_lobyte speed, sts_hibyte speed]
  addParam g sts_id txpacket

/-- `RegAction` (src lines 128-129): `return self.action(BROADCAST_ID)`. -/
def RegAction : Txn :=
  action BROADCAST_ID

/-- `WriteSpec` (src lines 139-142): re-encodes `speed` with
`sts_toscs(speed, 15)` before splitting it into bytes.  `none` when the
encode fails with `ValueOutOfRange`. -/
def WriteSpec (sts_id : Nat) (speed acc : Int) : Option Txn :=
  (sts_toscs speed 15).map fun (s : Nat) =>
    let txpacket : List Int :=
      [acc, 0, 0, 0, 0, sts_lobyte (s : Int), sts_hibyte (s : Int)]
    writeTxRx sts_id STS_ACC txpacket.length txpacket

/-! ## Read-side embedding.
Register contents are a byte-addressed map `Nat → Nat`; multi-byte reads
recombine bytes little-endian (low byte at the lower address, matching
the `_L`/`_H` register pairs and the spec's `loword`/`hiword` layout). -/

/-- Modelled from the spec: the 16-bit value a `read2ByteTxRx` at
`addr` yields from register contents `regs` (spec §4.2-§4.3: two bytes
recombined, low byte first). -/
def read2Byte (regs : Nat → Nat) (addr : Nat) : Nat :=
  regs addr + 256 * regs (addr + 1)

/-- Modelled from the spec: the 32-bit value a `read4ByteTxRx` at
`addr` yields from register contents `regs`. -/
def read4Byte (regs : Nat → Nat) (addr : Nat) : Nat :=
  regs addr + 256 * regs (addr + 1) + 65536 * regs (addr + 2) +
    16777216 * regs (addr + 3)

/-- `ReadPos` (src lines 75-77): the decoded position —
`sts_tohost(read2ByteTxRx(id, STS_PRESENT_POSITION_L), 15)`. -/
def ReadPosValue (regs : Nat → Nat) : Int :=
  sts_tohost (read2Byte regs STS_PRESENT_POSITION_L) 15

/-- `ReadSpeed` (src lines 79-81): the decoded speed —
`sts_tohost(read2ByteTxRx(id, STS_PRESENT_SPEED_L), 15)`. -/
def ReadSpeedValue (regs : Nat → Nat) : Int :=
  sts_tohost (read2Byte regs STS_PRESENT_SPEED_L) 15

/-- `ReadPosSpeed` (src lines 83-87): one 4-byte read at
`STS_PRESENT_POSITION_L`, split with `sts_loword`/`sts_hiword`, each
half decoded with `sts_tohost(·, 15)`. -/
def ReadPosSpeedValues (regs : Nat → Nat) : Int × Int :=
  let sts_present_position_speed := read4Byte regs STS_PRESENT_POSITION_L
  let sts_present_position := sts_loword sts_present_position_speed
  let sts_present_speed := sts_hiword sts_present_position_speed
  (sts_tohost sts_present_position 15, sts_tohost sts_present_speed 15)

/-- Outcome of one `read1ByteTxRx`: the byte read, the `CommResult` and
the device-error byte.  A bus environment assigns one outcome per
register address polled. -/
structure ReadOutcome where
  value : Nat
  comm : CommResult
  error : Nat
  deriving DecidableEq, Repr

/-- `ReadCurrent` (src lines 97-104): two 1-byte reads at
`STS_PRESENT_CURRENT_L` and `STS_PRESENT_CURRENT_H`; on double success
recombines them, otherwise returns `(None, sts_comm_result_l,
sts_error_l)` — note the `_l` results in the failure branch. -/
def ReadCurrent (bus : Nat → ReadOutcome) : Option Nat × CommResult × Nat :=
  let l := bus STS_PRESENT_CURRENT_L
  let h := bus STS_PRESENT_CURRENT_H
  if l.comm = CommResult.Success ∧ h.comm = CommResult.Success then
    (some ((h.value <<< 8) ||| l.value), CommResult.Success, 0)
  else
    (none, l.comm, l.error)

/-- `ReadLoad` (src lines 106-113): same shape as `ReadCurrent` at
`STS_PRESENT_LOAD_L` / `STS_PRESENT_LOAD_H`. -/
def ReadLoad (bus : Nat → ReadOutcome) : Option Nat × CommResult × Nat :=
  let l := bus STS_PRESENT_LOAD_L
  let h := bus STS_PRESENT_LOAD_H
  if l.comm = CommResult.Success ∧ h.comm = CommResult.Success then
    (some ((h.value <<< 8) ||| l.value), CommResult.Success, 0)
  else
    (none, l.comm, l.error)

/-! ## Concrete instances used by counterexamples and witnesses. -/

/-- Register contents whose position word is `0x4001 = 16385`: bit 14 is
set, bit 15 is clear. -/
def c1Regs : Nat → Nat := fun a =>
  if a = 56 then 1 else if a = 57 then 64 else 0

/-- A bus on which the high-byte reads (`STS_PRESENT_CURRENT_H`,
`STS_PRESENT_LOAD_H`) time out while every other read succeeds. -/
def c3Bus : Nat → ReadOutcome := fun a =>
  if a = STS_PRESENT_CURRENT_H ∨ a = STS_PRESENT_LOAD_H then
    ⟨0, CommResult.RxTimeout, 0⟩
  else
    ⟨5, CommResult.Success, 0⟩

/-- Register contents with every byte in range. -/
def c6Regs : Nat → Nat := fun a => a % 256

/-- A buffer of block length 7 with target 1 already staged. -/
def c7Buf : GroupSyncWrite :=
  ⟨41, 7, [(1, [0, 0, 0, 0, 0, 0, 0])]⟩

/-- The signed-15 round trip at sign bit index 15: encode with
`sts_toscs`, then decode the resulting raw register value with
`sts_tohost`. -/
def roundtrip15 (v : Int) : Option Int :=
  (sts_toscs v 15).map fun r => sts_tohost r 15

/-! ## Helper lemmas. -/

/-- Arithmetic characterisation of the sign-magnitude decoder: the test
of the sign bit is a division test, and the magnitude mask is a
remainder. -/
theorem sts_tohost_eq_ite (raw sbi : Nat) :
    sts_tohost raw sbi =
      if raw / 2 ^ sbi % 2 = 1 then -((raw % 2 ^ sbi : Nat) : Int)
      else ((raw % 2 ^ sbi : Nat) : Int) := by
  unfold sts_tohost
  rw [Nat.testBit_to_div_mod, Nat.and_pow_two_sub_one_eq_mod]
  simp

/-! ## Claims. -/

/-- C1 (counterexample): `ReadPos` does not decode with sign bit index
14.  On register contents whose raw position word is `16385 = 0x4001`
(bit 14 set, bit 15 clear) the code returns `16385`, while the bit-14
sign-magnitude rule of the claim yields `-(16385 & 16383) = -1`. -/
theorem c1_bit14_counterexample :
    ReadPosValue c1Regs = 16385 ∧ sts_tohost 16385 14 = -1 ∧
      (16385 : Int) ≠ -1 := by
  decide

/-- C1 (amended): `ReadPos` and `ReadSpeed` decode the raw 16-bit
register word (low byte at 56 resp. 58, high byte at 57 resp. 59) in
sign-magnitude form with sign bit index 15: if bit 15 of the raw value
is set the result is `-(raw & 32767)`, otherwise `raw & 32767`.
Equivalently, in arithmetic form: if `raw / 32768` is odd the result is
`-(raw % 32768)`, otherwise `raw % 32768`. -/
theorem c1_readPos_decode_sign_bit_15 (regs : Nat → Nat) :
    (ReadPosValue regs =
      (if (regs 56 + 256 * regs 57).testBit 15 then
        -((((regs 56 + 256 * regs 57) &&& 32767 : Nat)) : Int)
      else ((((regs 56 + 256 * regs 57) &&& 32767 : Nat)) : Int)) ∧
    ReadSpeedValue regs =
      (if (regs 58 + 256 * regs 59).testBit 15 then
        -((((regs 58 + 256 * regs 59) &&& 32767 : Nat)) : Int)
      else ((((regs 58 + 256 * regs 59) &&& 32767 : Nat)) : Int))) ∧
    ReadPosValue regs =
      (if (regs 56 + 256 * regs 57) / 32768 % 2 = 1 then
        -((((regs 56 + 256 * regs 57) % 32768 : Nat)) : Int)
      else ((((regs 56 + 256 * regs 57) % 32768 : Nat)) : Int)) ∧
    ReadSpeedValue regs =
      (if (regs 58 + 256 * regs 59) / 32768 % 2 = 1 then
        -((((regs 58 + 256 * regs 59) % 32768 : Nat)) : Int)
      else ((((regs 58 + 256 * regs 59) % 32768 : Nat)) : Int)) := by
  have h15 : (2 : Nat) ^ 15 = 32768 := by norm_num
  refine ⟨⟨rfl, rfl⟩, ?_, ?_⟩
  · show sts_tohost (regs 56 + 256 * regs 57) 15 = _
    rw [sts_tohost_eq_ite, h15]
  · show sts_tohost (regs 58 + 256 * regs 59) 15 = _
    rw [sts_tohost_eq_ite, h15]

/-- C2 (counterexample): the claimed round trip at sign bit index 14
fails inside the claimed range: `20000 ∈ [-32767, 32767]`, yet
`sts_toscs 20000 14` fails with `ValueOutOfRange` (here `none`), so
decoding its result cannot return `20000`. -/
theorem c2_bit14_counterexample :
    (-32767 : Int) ≤ 20000 ∧ (20000 : Int) ≤ 32767 ∧
      sts_toscs 20000 14 = none := by
  decide

/-- C2 (amended): at sign bit index 15 — the index the code actually
passes — encoding with `sts_toscs` and decoding with `sts_tohost`
round-trips on all of `[-32767, 32767]`, and `sts_toscs` fails with
`ValueOutOfRange` exactly when `abs v > (1<<15)-1 = 32767`. -/
theorem c2_roundtrip_sign_bit_15 (v : Int) :
    ((-32767 ≤ v ∧ v ≤ 32767) → roundtrip15 v = some v) ∧
    (sts_toscs v 15 = none ↔ 32767 < v.natAbs) := by
  have h15 : (2 : Nat) ^ 15 = 32768 := by norm_num
  constructor
  · rintro ⟨h1, h2⟩
    have hna : v.natAbs ≤ 32767 := by omega
    unfold roundtrip15 sts_toscs
    rw [h15, if_neg (by omega)]
    by_cases hv : v < 0
    · rw [if_pos hv]
      show some (sts_tohost (32768 + v.natAbs) 15) = some v
      rw [sts_tohost_eq_ite, h15]
      simp only [Option.some.injEq]
      split <;> omega
    · rw [if_neg hv]
      show some (sts_tohost v.toNat 15) = some v
      rw [sts_tohost_eq_ite, h15]
      simp only [Option.some.injEq]
      split <;> omega
  · constructor
    · intro h
      by_contra hc
      unfold sts_toscs at h
      rw [h15, if_neg (by omega)] at h
      split at h <;> simp at h
    · intro h
      unfold sts_toscs
      rw [h15, if_pos (by omega)]

/-- C2 (witness): the amended round trip evaluated at `v = -5` and the
failure condition evaluated at `v = 40000`. -/
theorem c2_roundtrip_sign_bit_15_witness :
    roundtrip15 (-5) = some (-5) ∧
      (sts_toscs 40000 15 = none ↔ 32767 < (40000 : Int).natAbs) :=
  ⟨(c2_roundtrip_sign_bit_15 (-5)).1 (by decide),
   (c2_roundtrip_sign_bit_15 40000).2⟩

/-- C3 (code bug): on a bus where the low-byte read succeeds and the
high-byte read times out, `ReadCurrent` and `ReadLoad` return
`(None, Success, 0)` — the failure branch returns `sts_comm_result_l`,
the result of the *low* read, so the high read's error is dropped and
the call reports success with no data. -/
theorem c3_error_dropped_on_high_read :
    (c3Bus STS_PRESENT_CURRENT_L).comm = CommResult.Success ∧
    (c3Bus STS_PRESENT_CURRENT_H).comm = CommResult.RxTimeout ∧
    ReadCurrent c3Bus = (none, CommResult.Success, 0) ∧
    (c3Bus STS_PRESENT_LOAD_L).comm = CommResult.Success ∧
    (c3Bus STS_PRESENT_LOAD_H).comm = CommResult.RxTimeout ∧
    ReadLoad c3Bus = (none, CommResult.Success, 0) := by
  decide

/-- C4: `WritePosEx` issues exactly one `WriteData` transaction starting
at register address 41 (`STS_ACC`) whose parameter block is the 7 bytes
`[acc, lobyte(position), hibyte(position), 0, 0, lobyte(speed),
hibyte(speed)]`, in that order. -/
theorem c4_writePosEx_frame (sts_id : Nat) (position speed acc : Int) :
    WritePosEx sts_id position speed acc =
      ⟨sts_id, Instr.WriteData, 41,
       [acc, sts_lobyte position, sts_hibyte position, 0, 0,
        sts_lobyte speed, sts_hibyte speed]⟩ ∧
    (WritePosEx sts_id position speed acc).params.length = 7 :=
  ⟨rfl, rfl⟩

/-- C5: `RegWritePosEx` produces, for the same arguments, exactly the
transaction `WritePosEx` produces except for the instruction: `RegWrite`
in place of `WriteData`.  Target, start address and the staged 7-byte
parameter block agree. -/
theorem c5_regWritePosEx_refines_writePosEx (sts_id : Nat)
    (position speed acc : Int) :
    RegWritePosEx sts_id position speed acc =
      { WritePosEx sts_id position speed acc with
          instruction := Instr.RegWrite } ∧
    (WritePosEx sts_id position speed acc).instruction =
      Instr.WriteData :=
  ⟨rfl, rfl⟩

/-- C6: `ReadPosSpeed` performs a single 4-byte read starting at
register address 56, decodes the low word as the position and the high
word as the speed (each through `sts_tohost (·) 15`), and — whenever the
register contents are bytes — these equal exactly what `ReadPos` and
`ReadSpeed` decode from the same registers. -/
theorem c6_readPosSpeed_consistent (regs : Nat → Nat)
    (h : ∀ a, regs a < 256) :
    ReadPosSpeedValues regs =
      (sts_tohost (sts_loword (read4Byte regs 56)) 15,
       sts_tohost (sts_hiword (read4Byte regs 56)) 15) ∧
    ReadPosSpeedValues regs = (ReadPosValue regs, ReadSpeedValue regs) := by
  refine ⟨rfl, ?_⟩
  have h56 := h 56
  have h57 := h 57
  have h58 := h 58
  have h59 := h 59
  simp only [ReadPosSpeedValues, ReadPosValue, ReadSpeedValue, read4Byte,
    read2Byte, sts_loword, sts_hiword, STS_PRESENT_POSITION_L,
    STS_PRESENT_SPEED_L, Nat.reduceAdd, Prod.mk.injEq]
  constructor
  · have e1 : (regs 56 + 256 * regs 57 + 65536 * regs 58 +
        16777216 * regs 59) % 65536 = regs 56 + 256 * regs 57 := by
      omega
    rw [e1]
  · have e2 : (regs 56 + 256 * regs 57 + 65536 * regs 58 +
        16777216 * regs 59) / 65536 % 65536 = regs 58 + 256 * regs 59 := by
      omega
    rw [e2]

/-- C6 (witness): the consistency of `ReadPosSpeed` with `ReadPos` and
`ReadSpeed` evaluated on concrete in-range register contents. -/
theorem c6_readPosSpeed_consistent_witness :
    ReadPosSpeedValues c6Regs =
      (sts_tohost (sts_loword (read4Byte c6Regs 56)) 15,
       sts_tohost (sts_hiword (read4Byte c6Regs 56)) 15) ∧
    ReadPosSpeedValues c6Regs =
      (ReadPosValue c6Regs, ReadSpeedValue c6Regs) :=
  c6_readPosSpeed_consistent c6Regs (fun a => Nat.mod_lt a (by decide))

/-- C7: staging through `SyncWritePosEx` a target id that is already in
the group sync-write buffer fails with `DuplicateTarget` and returns the
buffer unchanged, so the previously staged block for that id is kept. -/
theorem c7_duplicate_target_rejected (g : GroupSyncWrite) (sts_id : Nat)
    (position speed acc : Int) (hlen : g.data_length = 7)
    (hdup : g.data.any (fun e => e.1 = sts_id) = true) :
    SyncWritePosEx g sts_id position speed acc =
      (AddResult.DuplicateTarget, g) := by
  unfold SyncWritePosEx addParam
  simp [hlen, hdup]

/-- C7 (witness): adding target 1 again to a buffer that already stages
target 1 fails and leaves the buffer as it was. -/
theorem c7_duplicate_target_rejected_witness :
    SyncWritePosEx c7Buf 1 2 3 4 = (AddResult.DuplicateTarget, c7Buf) :=
  c7_duplicate_target_rejected c7Buf 1 2 3 4 rfl (by decide)

/-- C8: `RegAction` transmits an `Action` instruction with zero
parameter bytes to the broadcast id `0xFE = 254`; the wrapper method
takes no target argument, so this is the only `Action` it can issue. -/
theorem c8_regAction_broadcast :
    RegAction = ⟨BROADCAST_ID, Instr.Action, 0, []⟩ ∧
    BROADCAST_ID = 254 ∧ RegAction.params = [] :=
  ⟨rfl, rfl, rfl⟩

/-- C9: the handler's buffer is created once with start address
`STS_ACC = 41` and block length 7; `SyncWritePosEx` always stages a
7-byte block, so on any buffer of block length 7 its `addParam` call can
never return `LengthMismatch`, and the block length stays 7. -/
theorem c9_lengthMismatch_unreachable :
    stsGroupSyncWrite.start_address = STS_ACC ∧
    stsGroupSyncWrite.data_length = 7 ∧
    ∀ (g : GroupSyncWrite) (sts_id : Nat) (position speed acc : Int),
      g.data_length = 7 →
        (SyncWritePosEx g sts_id position speed acc).1 ≠
            AddResult.LengthMismatch ∧
          (SyncWritePosEx g sts_id position speed acc).2.data_length = 7 := by
  refine ⟨rfl, rfl, ?_⟩
  intro g sts_id position speed acc hlen
  unfold SyncWritePosEx addParam
  constructor
  · simp only [List.length_cons, List.length_nil, hlen]
    norm_num
    split <;> simp
  · simp only [List.length_cons, List.length_nil, hlen]
    norm_num
    split <;> simp [hlen]

/-- C9 (witness): staging into the freshly created handler buffer. -/
theorem c9_lengthMismatch_unreachable_witness :
    (SyncWritePosEx stsGroupSyncWrite 1 2 3 4).1 ≠
        AddResult.LengthMismatch ∧
      (SyncWritePosEx stsGroupSyncWrite 1 2 3 4).2.data_length = 7 :=
  c9_lengthMismatch_unreachable.2.2 stsGroupSyncWrite 1 2 3 4 rfl

/-- C10: `WritePosEx`, `RegWritePosEx` and `SyncWritePosEx` split the
caller's position and speed into bytes directly with
`sts_lobyte`/`sts_hibyte`, with no `sts_toscs` encoding, while
`WriteSpec` first re-encodes its speed with `sts_toscs (·) 15`; for the
negative speed `-1` the direct split `(255, 255)` differs from the
sign-magnitude wire bytes `(1, 128)` that the encoding produces, so the
wrapper does not convert negative arguments to the device's
sign-magnitude format. -/
theorem c10_no_sign_magnitude_in_writePosEx :
    (∀ (sts_id : Nat) (position speed acc : Int),
      (WritePosEx sts_id position speed acc).params =
        [acc, sts_lobyte position, sts_hibyte position, 0, 0,
         sts_lobyte speed, sts_hibyte speed] ∧
      (RegWritePosEx sts_id position speed acc).params =
        [acc, sts_lobyte position, sts_hibyte position, 0, 0,
         sts_lobyte speed, sts_hibyte speed] ∧
      ∀ g : GroupSyncWrite,
        SyncWritePosEx g sts_id position speed acc =
          addParam g sts_id
            [acc, sts_lobyte position, sts_hibyte position, 0, 0,
             sts_lobyte speed, sts_hibyte speed]) ∧
    (∀ (sts_id : Nat) (speed acc : Int),
      WriteSpec sts_id speed acc =
        (sts_toscs speed 15).map fun (s : Nat) =>
          ⟨sts_id, Instr.WriteData, 41,
           [acc, 0, 0, 0, 0, sts_lobyte (s : Int),
            sts_hibyte (s : Int)]⟩) ∧
    sts_toscs (-1) 15 = some 32769 ∧
    (sts_lobyte (-1), sts_hibyte (-1)) = (255, 255) ∧
    (sts_lobyte 32769, sts_hibyte 32769) = (1, 128) ∧
    ((255 : Int), (255 : Int)) ≠ ((1 : Int), (128 : Int)) := by
  refine ⟨fun i p s a => ⟨rfl, rfl, fun g => rfl⟩, ?_, ?_, ?_, ?_, ?_⟩
  · intro i s a
    unfold WriteSpec writeTxRx
    rfl
  all_goals decide

end STS
